import Mathlib

/-!
Shallow embedding of the bdm-enhancement-sim core: the stochastic enhancement
transition engine and its Monte Carlo aggregation layer.

Two implementations live in the repository and both are embedded here:
* namespace `Sim` mirrors src/src/simulator.py (class AwakeningSimulator);
* namespace `Engine` mirrors src/src/item_types/awakening/engine.py
  (class AwakeningEngine).

Conventions of the embedding:
* Python floats that hold probabilities and random draws become rationals;
* the random number generator becomes an explicit stream of draws, a list of
  rationals consumed head first, so one seed value corresponds to one stream;
* dictionaries with numeric default lookups become functions into Option with
  an explicit getD at each use site, mirroring dict.get(key, default);
* code that can raise becomes Except String; running out of the finite draw
  stream is reported through the same channel (the source stream is infinite);
* unbounded loops take an explicit fuel argument and return none when the
  fuel is exhausted before the loop condition fails.

Configuration tables are passed as parameters (the source reads module level
constants); the shipped tables of src/src/config.py and src/src/market_config.py
are provided as concrete instances.
-/

namespace BDM

/-- Chance that a restoration scroll prevents a downgrade
(config.py RESTORATION_SUCCESS_RATE = 0.50). -/
def RESTORATION_SUCCESS_RATE : ℚ := mkRat 1 2

/-- Success rate of one Hepta/Okta sub-enhancement attempt
(config.py HEPTA_OKTA_SUCCESS_RATE = 0.06). -/
def HEPTA_OKTA_SUCCESS_RATE : ℚ := mkRat 6 100

/-- Valks +10 percent bonus, multiplicative (config.py VALKS_MULTIPLIER_10 = 1.10). -/
def VALKS_MULTIPLIER_10 : ℚ := mkRat 11 10

/-- Valks +50 percent bonus, multiplicative (config.py VALKS_MULTIPLIER_50 = 1.50). -/
def VALKS_MULTIPLIER_50 : ℚ := mkRat 3 2

/-- Valks +100 percent bonus, multiplicative (config.py VALKS_MULTIPLIER_100 = 2.00). -/
def VALKS_MULTIPLIER_100 : ℚ := 2

/-- Scrolls consumed per restoration attempt (market_config.py). -/
def RESTORATION_PER_ATTEMPT : ℕ := 200

/-- Scrolls per market bundle (market_config.py). -/
def RESTORATION_MARKET_BUNDLE_SIZE : ℕ := 200000

/-- Sub-enhancements needed to complete the Hepta path (market_config.py). -/
def HEPTA_SUB_ENHANCEMENTS : ℕ := 5

/-- Sub-enhancements needed to complete the Okta path (market_config.py). -/
def OKTA_SUB_ENHANCEMENTS : ℕ := 10

/-- Failures before a guaranteed Hepta/Okta sub-success (market_config.py). -/
def HEPTA_OKTA_ANVIL_PITY : ℕ := 17

/-- Exquisite Black Crystals per Hepta/Okta sub-attempt (market_config.py). -/
def HEPTA_OKTA_CRYSTALS_PER_ATTEMPT : ℕ := 15

/-- EXQUISITE_BLACK_CRYSTAL_RECIPE entry restoration_scrolls (market_config.py). -/
def EXQUISITE_RESTORATION_SCROLLS : ℕ := 1050

/-- EXQUISITE_BLACK_CRYSTAL_RECIPE entry valks_100 (market_config.py). -/
def EXQUISITE_VALKS_100 : ℕ := 2

/-- EXQUISITE_BLACK_CRYSTAL_RECIPE entry pristine_black_crystal (market_config.py). -/
def EXQUISITE_PRISTINE_CRYSTAL : ℕ := 30

/-- Shipped base success rate table, config.py AWAKENING_ENHANCEMENT_RATES. -/
def AWAKENING_ENHANCEMENT_RATES : ℤ → Option ℚ := fun l =>
  if l = 1 then some (mkRat 70 100)
  else if l = 2 then some (mkRat 60 100)
  else if l = 3 then some (mkRat 40 100)
  else if l = 4 then some (mkRat 20 100)
  else if l = 5 then some (mkRat 10 100)
  else if l = 6 then some (mkRat 7 100)
  else if l = 7 then some (mkRat 5 100)
  else if l = 8 then some (mkRat 3 100)
  else if l = 9 then some (mkRat 1 100)
  else if l = 10 then some (mkRat 5 1000)
  else none

/-- Shipped anvil pity threshold table, config.py ANVIL_THRESHOLDS_AWAKENING.
Levels I and II carry threshold 0, documented in the source as no pity. -/
def ANVIL_THRESHOLDS_AWAKENING : ℤ → Option ℕ := fun l =>
  if l = 1 then some 0
  else if l = 2 then some 0
  else if l = 3 then some 2
  else if l = 4 then some 3
  else if l = 5 then some 5
  else if l = 6 then some 8
  else if l = 7 then some 10
  else if l = 8 then some 17
  else if l = 9 then some 50
  else if l = 10 then some 100
  else none

/-- Shipped material cost table, config.py AWAKENING_MATERIAL_COSTS
(one pristine black crystal per attempt at every level). -/
def AWAKENING_MATERIAL_COSTS : ℤ → Option ℕ := fun l =>
  if 1 ≤ l ∧ l ≤ 10 then some 1 else none

/-- Shipped restoration scroll cost table, config.py RESTORATION_SCROLL_COSTS
(200 scrolls per recovery attempt at every level). -/
def RESTORATION_SCROLL_COSTS : ℤ → Option ℕ := fun l =>
  if 1 ≤ l ∧ l ≤ 10 then some 200 else none

/-- Python short-circuit idiom b or (rng.random() < r): when b already holds no
draw is consumed, otherwise one draw is consumed and compared against r.
Returns none when the draw stream is exhausted. -/
def orDraw (b : Bool) (r : ℚ) (ds : List ℚ) : Option (Bool × List ℚ) :=
  if b then some (true, ds)
  else
    match ds with
    | [] => none
    | d :: rest => some (decide (d < r), rest)

/-- Market price lookup, market_config.py MARKET_PRICES: every listed item is
priced 0 except restoration_scroll at 5 billion silver; absent items default
to 0 through dict.get, so the mapping is total with default 0. -/
def MARKET_PRICES : String → ℕ := fun item =>
  if item = "restoration_scroll" then 5000000000 else 0

/-- market_config.py calculate_crafting_cost: only pristine_black_crystal has a
crafting recipe (10 weapon stones, 10 armor stones, 5 black crystals); every
other item falls back to its market price. -/
def calculate_crafting_cost (item : String) : ℕ :=
  if item = "pristine_black_crystal" then
    MARKET_PRICES "black_stone_weapon" * 10 +
    MARKET_PRICES "black_stone_armor" * 10 +
    MARKET_PRICES "black_crystal" * 5
  else MARKET_PRICES item

/-- market_config.py get_effective_price with the default prefer_craft=True. -/
def get_effective_price (item : String) : ℕ :=
  let market_price := MARKET_PRICES item
  let craft_cost := calculate_crafting_cost item
  if 0 < craft_cost then
    if 0 < market_price then min market_price craft_cost else craft_cost
  else market_price

namespace Sim

/-- simulator.py RestorationStrategy. -/
inductive RestorationStrategy where
  | never
  | always
  | above_threshold
  | cost_efficient
deriving DecidableEq

/-- simulator.py ValksStrategy. -/
inductive ValksStrategy where
  | never
  | small_only
  | large_only
  | large_high
  | optimal
deriving DecidableEq

/-- simulator.py EnhancementStrategy. -/
structure EnhancementStrategy where
  restoration : RestorationStrategy
  restoration_threshold : ℤ
  valks : ValksStrategy
  valks_large_threshold : ℤ
  use_protection : Bool

/-- Material quantities of one attempt or of a whole run; models the
materials dicts of simulator.py (absent key = quantity 0). -/
structure Mats where
  pristine_black_crystal : ℕ
  valks_advice_10 : ℕ
  valks_advice_50 : ℕ
  restoration_scroll : ℕ
deriving DecidableEq

instance : Add Mats :=
  ⟨fun a b =>
    ⟨a.pristine_black_crystal + b.pristine_black_crystal,
     a.valks_advice_10 + b.valks_advice_10,
     a.valks_advice_50 + b.valks_advice_50,
     a.restoration_scroll + b.restoration_scroll⟩⟩

/-- Silver value of a bag of materials: simulator.py line 312, the sum over
materials of get_effective_price(mat) * amount. -/
def Mats.silver_value (m : Mats) : ℕ :=
  get_effective_price "pristine_black_crystal" * m.pristine_black_crystal +
  get_effective_price "valks_advice_10" * m.valks_advice_10 +
  get_effective_price "valks_advice_50" * m.valks_advice_50 +
  get_effective_price "restoration_scroll" * m.restoration_scroll

/-- simulator.py GearState: current level plus the anvil_energy dictionary
(modelled as a total map with default 0, matching get_energy). -/
structure GearState where
  awakening_level : ℤ
  anvil_energy : ℤ → ℕ

/-- simulator.py AttemptResult. -/
structure AttemptResult where
  success : Bool
  starting_level : ℤ
  ending_level : ℤ
  anvil_triggered : Bool
  restoration_attempted : Bool
  restoration_success : Bool
  valks_used : Option String
  materials_cost : Mats

/-- simulator.py SimulationResult. -/
structure SimulationResult where
  target_level : ℤ
  total_attempts : ℕ
  successes : ℕ
  failures : ℕ
  anvil_triggers : ℕ
  restoration_attempts : ℕ
  restoration_successes : ℕ
  level_drops : ℕ
  materials_used : Mats
  silver_cost : ℕ
  attempt_history : List AttemptResult

/-- The configuration tables read by AwakeningSimulator, passed explicitly. -/
structure Tables where
  rates : ℤ → Option ℚ
  anvil : ℤ → Option ℕ
  mat_costs : ℤ → Option ℕ
  scroll_costs : ℤ → Option ℕ

/-- The shipped tables of config.py. -/
def defaultTables : Tables :=
  ⟨AWAKENING_ENHANCEMENT_RATES, ANVIL_THRESHOLDS_AWAKENING,
   AWAKENING_MATERIAL_COSTS, RESTORATION_SCROLL_COSTS⟩

/-- simulator.py _get_success_rate: base rate from the rate table with silent
default 0.01, then one multiplicative Valks bonus clamped at 1. -/
def _get_success_rate (rates : ℤ → Option ℚ) (target_level : ℤ)
    (valks : Option String) : ℚ :=
  let base_rate := (rates target_level).getD (1/100)
  if valks = some "small" ∨ valks = some "10" then
    min 1 (base_rate * VALKS_MULTIPLIER_10)
  else if valks = some "large" ∨ valks = some "50" then
    min 1 (base_rate * VALKS_MULTIPLIER_50)
  else if valks = some "100" then
    min 1 (base_rate * VALKS_MULTIPLIER_100)
  else base_rate

/-- simulator.py _should_use_restoration. -/
def _should_use_restoration (current_level : ℤ) (strategy : EnhancementStrategy) : Bool :=
  match strategy.restoration with
  | .never => false
  | .always => true
  | .above_threshold => decide (strategy.restoration_threshold ≤ current_level)
  | .cost_efficient => decide (4 ≤ current_level)

/-- simulator.py _get_valks_type. -/
def _get_valks_type (target_level : ℤ) (strategy : EnhancementStrategy) : Option String :=
  match strategy.valks with
  | .never => none
  | .small_only => some "small"
  | .large_only => some "large"
  | .large_high =>
      if strategy.valks_large_threshold ≤ target_level then some "large" else none
  | .optimal =>
      if 7 ≤ target_level then some "large"
      else if 4 ≤ target_level then some "small"
      else none

/-- simulator.py attempt_enhancement. One enhancement attempt: raises past
level ten, checks anvil pity with the unguarded comparison
current_energy ≥ max_energy (source line 184), pays materials, rolls, and on
failure optionally rolls restoration before downgrading. Returns the outcome
record, the new gear state and the remaining draw stream. -/
def attempt_enhancement (tbl : Tables) (gear : GearState)
    (strategy : EnhancementStrategy) (ds : List ℚ) :
    Except String (AttemptResult × GearState × List ℚ) :=
  let target_level := gear.awakening_level + 1
  if 10 < target_level then .error "Already at max awakening level (X)"
  else
    let valks_type := _get_valks_type target_level strategy
    let success_rate := _get_success_rate tbl.rates target_level valks_type
    let current_energy := gear.anvil_energy target_level
    let max_energy := (tbl.anvil target_level).getD 999
    let anvil_triggered := decide (max_energy ≤ current_energy)
    let materials : Mats :=
      ⟨(tbl.mat_costs target_level).getD 1,
       if valks_type = some "small" then 1 else 0,
       if valks_type = some "large" then 1 else 0,
       0⟩
    let starting_level := gear.awakening_level
    if anvil_triggered then
      .ok (⟨true, starting_level, target_level, true, false, false, valks_type, materials⟩,
           ⟨target_level,
            fun t => if t = target_level then 0 else gear.anvil_energy t⟩,
           ds)
    else
      match ds with
      | [] => .error "draw stream exhausted"
      | roll :: ds =>
        if roll < success_rate then
          .ok (⟨true, starting_level, target_level, false, false, false, valks_type, materials⟩,
               ⟨target_level,
                fun t => if t = target_level then 0 else gear.anvil_energy t⟩,
               ds)
        else
          let gear : GearState :=
            ⟨gear.awakening_level,
             fun t => if t = target_level then current_energy + 1 else gear.anvil_energy t⟩
          if 0 < gear.awakening_level then
            if _should_use_restoration gear.awakening_level strategy then
              let materials : Mats :=
                {materials with
                  restoration_scroll := (tbl.scroll_costs gear.awakening_level).getD 1}
              match ds with
              | [] => .error "draw stream exhausted"
              | roll2 :: ds =>
                if roll2 < RESTORATION_SUCCESS_RATE then
                  .ok (⟨false, starting_level, gear.awakening_level, false, true, true,
                        valks_type, materials⟩, gear, ds)
                else
                  let gear : GearState := {gear with awakening_level := gear.awakening_level - 1}
                  .ok (⟨false, starting_level, gear.awakening_level, false, true, false,
                        valks_type, materials⟩, gear, ds)
            else
              let gear : GearState := {gear with awakening_level := gear.awakening_level - 1}
              .ok (⟨false, starting_level, gear.awakening_level, false, false, false,
                    valks_type, materials⟩, gear, ds)
          else
            .ok (⟨false, starting_level, gear.awakening_level, false, false, false,
                  valks_type, materials⟩, gear, ds)

/-- Fresh accumulator for a run, simulator.py simulate_to_target lines 272-281. -/
def initResult (target_level : ℤ) : SimulationResult :=
  ⟨target_level, 0, 0, 0, 0, 0, 0, 0, ⟨0, 0, 0, 0⟩, 0, []⟩

/-- The per-attempt accumulation of simulator.py simulate_to_target lines
285-309: bump the attempt counter and history, the outcome counters, the
level drop counter and the consumed materials. -/
def accumulate (res : SimulationResult) (attempt : AttemptResult) : SimulationResult :=
  let res := {res with
    total_attempts := res.total_attempts + 1,
    attempt_history := res.attempt_history ++ [attempt]}
  let res :=
    if attempt.success then {res with successes := res.successes + 1}
    else {res with failures := res.failures + 1}
  let res :=
    if attempt.anvil_triggered then
      {res with anvil_triggers := res.anvil_triggers + 1}
    else res
  let res :=
    if attempt.restoration_attempted then
      let res := {res with restoration_attempts := res.restoration_attempts + 1}
      if attempt.restoration_success then
        {res with restoration_successes := res.restoration_successes + 1}
      else {res with level_drops := res.level_drops + 1}
    else if !attempt.success && decide (0 < attempt.starting_level) then
      {res with level_drops := res.level_drops + 1}
    else res
  {res with materials_used := res.materials_used + attempt.materials_cost}

/-- The attempt loop of simulator.py simulate_to_target. The fuel argument is
the remaining attempt budget, so the loop condition attempts < max_attempts
is the fuel being nonzero. -/
def sim_loop (tbl : Tables) (strategy : EnhancementStrategy) (target_level : ℤ) :
    ℕ → GearState → SimulationResult → List ℚ →
    Except String (SimulationResult × GearState × List ℚ)
  | 0, gear, res, ds => .ok (res, gear, ds)
  | n + 1, gear, res, ds =>
    if gear.awakening_level < target_level then
      match attempt_enhancement tbl gear strategy ds with
      | .error e => .error e
      | .ok (attempt, gear, ds) =>
        sim_loop tbl strategy target_level n gear (accumulate res attempt) ds
    else .ok (res, gear, ds)

/-- simulator.py simulate_to_target: run the attempt loop from a fresh result
record, then derive the silver cost from the accumulated materials. Also
returns the final gear state and remaining draw stream. -/
def simulate_to_target (tbl : Tables) (strategy : EnhancementStrategy)
    (target_level : ℤ) (starting_state : GearState) (max_attempts : ℕ) (ds : List ℚ) :
    Except String (SimulationResult × GearState × List ℚ) :=
  match sim_loop tbl strategy target_level max_attempts starting_state
      (initResult target_level) ds with
  | .error e => .error e
  | .ok (res, gear, ds) =>
      .ok ({res with silver_cost := res.materials_used.silver_value}, gear, ds)

/-- simulator.py run_monte_carlo, the run collection loop: num_simulations
sequential runs from the same starting state, all drawing from the single
shared generator stream. Returns the per-run results in run order. -/
def run_monte_carlo (tbl : Tables) (strategy : EnhancementStrategy)
    (target_level : ℤ) (starting_state : GearState) (max_attempts : ℕ) :
    ℕ → List ℚ → Except String (List SimulationResult × List ℚ)
  | 0, ds => .ok ([], ds)
  | n + 1, ds =>
    match simulate_to_target tbl strategy target_level starting_state max_attempts ds with
    | .error e => .error e
    | .ok (res, _, ds) =>
      match run_monte_carlo tbl strategy target_level starting_state max_attempts n ds with
      | .error e => .error e
      | .ok (rs, ds) => .ok (res :: rs, ds)

/-- simulator.py run_monte_carlo inner helper percentile:
data[min(int(len(data) * p), len(data) - 1)], with int() truncation written as
the floor (the index expression is nonnegative for nonnegative p). -/
def percentile (data : List ℚ) (p : ℚ) : ℚ :=
  data.getD (min (Int.toNat ⌊(data.length : ℚ) * p⌋) (data.length - 1)) 0

/-- simulator.py run_monte_carlo inner helper average:
sum(data) / len(data) if data else 0. -/
def average (data : List ℚ) : ℚ :=
  if data.isEmpty then 0 else data.sum / data.length

/-- The ascending sort applied by run_monte_carlo to each metric before the
percentile lookups, shown for the attempts metric (source line 336). -/
def attempts_sorted (results : List SimulationResult) : List ℚ :=
  List.insertionSort (· ≤ ·) (results.map fun r => (r.total_attempts : ℚ))

end Sim

namespace Engine

/-- engine.py MarketPrices. -/
structure MarketPrices where
  crystal_price : ℕ
  restoration_bundle_price : ℕ
  valks_10_price : ℕ
  valks_50_price : ℕ
  valks_100_price : ℕ

/-- engine.py MarketPrices.restoration_attempt_cost: cost of the 200 scrolls
of one restoration attempt, integer floor division as in the source. -/
def MarketPrices.restoration_attempt_cost (p : MarketPrices) : ℕ :=
  if p.restoration_bundle_price = 0 then 0
  else RESTORATION_PER_ATTEMPT * p.restoration_bundle_price / RESTORATION_MARKET_BUNDLE_SIZE

/-- engine.py SimulationConfig. -/
structure SimulationConfig where
  start_level : ℤ
  target_level : ℤ
  restoration_from : ℤ
  use_hepta : Bool
  use_okta : Bool
  start_hepta : ℕ
  start_okta : ℕ
  valks_10_from : ℤ
  valks_50_from : ℤ
  valks_100_from : ℤ
  prices : MarketPrices

/-- The _exquisite_cost value cached by AwakeningEngine.__init__. -/
def exquisite_cost (cfg : SimulationConfig) : ℕ :=
  EXQUISITE_RESTORATION_SCROLLS * cfg.prices.restoration_bundle_price /
      RESTORATION_MARKET_BUNDLE_SIZE +
    EXQUISITE_VALKS_100 * cfg.prices.valks_100_price +
    EXQUISITE_PRISTINE_CRYSTAL * cfg.prices.crystal_price

/-- The engine configuration together with the two tables the module level
caches are built from (config.py AWAKENING_ENHANCEMENT_RATES and
ANVIL_THRESHOLDS_AWAKENING). -/
structure EngineCtx where
  cfg : SimulationConfig
  rates : ℤ → Option ℚ
  anvil : ℤ → Option ℕ

/-- engine.py module level _RATE_CACHE: rates.get(level, 0.01) precomputed for
levels 1..10, then read back in the hot path with .get(target_level, 0.01),
so any level outside 1..10 also yields the 0.01 default. -/
def _RATE_CACHE (rates : ℤ → Option ℚ) (l : ℤ) : ℚ :=
  if 1 ≤ l ∧ l ≤ 10 then (rates l).getD (1/100) else 1/100

/-- engine.py module level _ANVIL_CACHE: thresholds.get(level, 999) for levels
1..10, read back with .get(target_level, 999). -/
def _ANVIL_CACHE (anvil : ℤ → Option ℕ) (l : ℤ) : ℕ :=
  if 1 ≤ l ∧ l ≤ 10 then (anvil l).getD 999 else 999

/-- engine.py module level _RATE_CACHE_VALKS_10: min(1, rate * 1.1) over the
entries of _RATE_CACHE, read back with default 0.01. -/
def _RATE_CACHE_VALKS_10 (rates : ℤ → Option ℚ) (l : ℤ) : ℚ :=
  if 1 ≤ l ∧ l ≤ 10 then min 1 ((rates l).getD (1/100) * VALKS_MULTIPLIER_10) else 1/100

/-- engine.py module level _RATE_CACHE_VALKS_50. -/
def _RATE_CACHE_VALKS_50 (rates : ℤ → Option ℚ) (l : ℤ) : ℚ :=
  if 1 ≤ l ∧ l ≤ 10 then min 1 ((rates l).getD (1/100) * VALKS_MULTIPLIER_50) else 1/100

/-- engine.py module level _RATE_CACHE_VALKS_100. -/
def _RATE_CACHE_VALKS_100 (rates : ℤ → Option ℚ) (l : ℤ) : ℚ :=
  if 1 ≤ l ∧ l ≤ 10 then min 1 ((rates l).getD (1/100) * VALKS_MULTIPLIER_100) else 1/100

/-- The mutable state of AwakeningEngine (slots level, anvil_energy, resource
counters, Hepta/Okta progress and pity). -/
structure EngineState where
  level : ℤ
  anvil_energy : ℤ → ℕ
  crystals : ℕ
  scrolls : ℕ
  silver : ℕ
  exquisite_crystals : ℕ
  valks_10_used : ℕ
  valks_50_used : ℕ
  valks_100_used : ℕ
  attempts : ℕ
  hepta_progress : ℕ
  okta_progress : ℕ
  hepta_pity : ℕ
  okta_pity : ℕ

/-- engine.py AwakeningEngine.reset. -/
def reset (ctx : EngineCtx) : EngineState :=
  ⟨ctx.cfg.start_level, fun _ => 0, 0, 0, 0, 0, 0, 0, 0, 0,
   ctx.cfg.start_hepta, ctx.cfg.start_okta, 0, 0⟩

/-- engine.py StepResult. -/
structure StepResult where
  success : Bool
  anvil_triggered : Bool
  starting_level : ℤ
  ending_level : ℤ
  valks_used : Option String
  restoration_attempted : Bool
  restoration_success : Bool
  is_hepta_okta : Bool
  sub_progress : ℕ
  sub_pity : ℕ
  path_complete : Bool
  path_name : String

/-- engine.py is_complete: level at or above the configured target. -/
def is_complete (ctx : EngineCtx) (s : EngineState) : Bool :=
  decide (ctx.cfg.target_level ≤ s.level)

/-- engine.py _should_use_hepta. -/
def _should_use_hepta (ctx : EngineCtx) (s : EngineState) : Bool :=
  (ctx.cfg.use_hepta || decide (0 < s.hepta_progress)) &&
    decide (s.level = 7) && decide (s.hepta_progress < HEPTA_SUB_ENHANCEMENTS)

/-- engine.py _should_use_okta. -/
def _should_use_okta (ctx : EngineCtx) (s : EngineState) : Bool :=
  (ctx.cfg.use_okta || decide (0 < s.okta_progress)) &&
    decide (s.level = 8) && decide (s.okta_progress < OKTA_SUB_ENHANCEMENTS)

/-- engine.py _perform_hepta_okta_step: one sub-attempt of the Hepta or Okta
path (the is_okta flag selects which, written with cond). Pays 15 exquisite
crystals up front, then either a pity-forced success (no draw) or one draw
against the fixed 6 percent sub-rate; on success with the path complete,
jumps the main level to 8 (Hepta) or 9 (Okta), resets the anvil energy of
that level and clears the sub-progress and sub-pity. -/
def _perform_hepta_okta_step (ctx : EngineCtx) (is_okta : Bool) (s : EngineState)
    (ds : List ℚ) : Option (StepResult × EngineState × List ℚ) :=
  let path_name := cond is_okta "Okta" "Hepta"
  let current_progress := cond is_okta s.okta_progress s.hepta_progress
  let current_pity := cond is_okta s.okta_pity s.hepta_pity
  let max_progress := cond is_okta OKTA_SUB_ENHANCEMENTS HEPTA_SUB_ENHANCEMENTS
  let s := {s with
    exquisite_crystals := s.exquisite_crystals + HEPTA_OKTA_CRYSTALS_PER_ATTEMPT,
    silver := s.silver + exquisite_cost ctx.cfg * HEPTA_OKTA_CRYSTALS_PER_ATTEMPT,
    attempts := s.attempts + 1}
  let anvil_triggered := decide (HEPTA_OKTA_ANVIL_PITY ≤ current_pity)
  match orDraw anvil_triggered HEPTA_OKTA_SUCCESS_RATE ds with
  | none => none
  | some (success, ds) =>
    if success then
      let s :=
        cond is_okta {s with okta_progress := s.okta_progress + 1, okta_pity := 0}
          {s with hepta_progress := s.hepta_progress + 1, hepta_pity := 0}
      let new_progress := cond is_okta s.okta_progress s.hepta_progress
      let path_complete := decide (max_progress ≤ new_progress)
      let s :=
        if path_complete then
          let tl : ℤ := cond is_okta 9 8
          let s := {s with
            level := tl,
            anvil_energy := fun t => if t = tl then 0 else s.anvil_energy t}
          cond is_okta {s with okta_progress := 0, okta_pity := 0}
            {s with hepta_progress := 0, hepta_pity := 0}
        else s
      some (⟨true, anvil_triggered,
             if path_complete then cond is_okta 8 7 else s.level,
             s.level, none, false, false, true,
             if path_complete then 0 else new_progress, 0,
             path_complete, path_name⟩, s, ds)
    else
      let s :=
        cond is_okta {s with okta_pity := s.okta_pity + 1}
          {s with hepta_pity := s.hepta_pity + 1}
      some (⟨false, false, s.level, s.level, none, false, false, true,
             current_progress,
             cond is_okta s.okta_pity s.hepta_pity,
             false, path_name⟩, s, ds)

/-- The Valks selection of engine.py _perform_enhancement_step lines 344-359:
the chosen tag together with the matching precomputed rate cache entry. -/
def _select_valks (ctx : EngineCtx) (target_level : ℤ) : Option String × ℚ :=
  if 0 < ctx.cfg.valks_100_from ∧ ctx.cfg.valks_100_from ≤ target_level then
    (some "100", _RATE_CACHE_VALKS_100 ctx.rates target_level)
  else if 0 < ctx.cfg.valks_50_from ∧ ctx.cfg.valks_50_from ≤ target_level then
    (some "50", _RATE_CACHE_VALKS_50 ctx.rates target_level)
  else if 0 < ctx.cfg.valks_10_from ∧ ctx.cfg.valks_10_from ≤ target_level then
    (some "10", _RATE_CACHE_VALKS_10 ctx.rates target_level)
  else (none, _RATE_CACHE ctx.rates target_level)

/-- The unconditional resource accounting of engine.py
_perform_enhancement_step lines 366-379: one attempt, one crystal, its
silver price, and the selected Valks counter and price. -/
def _account_attempt (ctx : EngineCtx) (valks_type : Option String)
    (s : EngineState) : EngineState :=
  let s := {s with
    attempts := s.attempts + 1,
    crystals := s.crystals + 1,
    silver := s.silver + ctx.cfg.prices.crystal_price}
  if valks_type = some "10" then
    {s with
      valks_10_used := s.valks_10_used + 1,
      silver := s.silver + ctx.cfg.prices.valks_10_price}
  else if valks_type = some "50" then
    {s with
      valks_50_used := s.valks_50_used + 1,
      silver := s.silver + ctx.cfg.prices.valks_50_price}
  else if valks_type = some "100" then
    {s with
      valks_100_used := s.valks_100_used + 1,
      silver := s.silver + ctx.cfg.prices.valks_100_price}
  else s

/-- engine.py _perform_enhancement_step: one normal enhancement attempt.
Chooses the Valks tier from the thresholds and reads the matching precomputed
rate cache, checks anvil pity with the guarded comparison
current_energy ≥ max_energy and max_energy > 0 (source line 364), pays the
crystal and Valks costs, and resolves success, failure, restoration and
downgrade exactly as lines 381-424 of the source. -/
def _perform_enhancement_step (ctx : EngineCtx) (s : EngineState) (ds : List ℚ) :
    Option (StepResult × EngineState × List ℚ) :=
  let level := s.level
  let target_level := level + 1
  let starting_level := level
  let valks_type : Option String := (_select_valks ctx target_level).1
  let base_rate : ℚ := (_select_valks ctx target_level).2
  let current_energy := s.anvil_energy target_level
  let max_energy := _ANVIL_CACHE ctx.anvil target_level
  let anvil_triggered := decide (max_energy ≤ current_energy ∧ 0 < max_energy)
  let s := _account_attempt ctx valks_type s
  match orDraw anvil_triggered base_rate ds with
  | none => none
  | some (success, ds) =>
    if success then
      let s := {s with
        level := target_level,
        anvil_energy := fun t => if t = target_level then 0 else s.anvil_energy t}
      some (⟨true, anvil_triggered, starting_level, target_level, valks_type,
             false, false, false, 0, 0, false, ""⟩, s, ds)
    else
      let s := {s with
        anvil_energy := fun t => if t = target_level then current_energy + 1 else s.anvil_energy t}
      if 0 < level ∧ 0 < ctx.cfg.restoration_from ∧ ctx.cfg.restoration_from ≤ level then
        let s := {s with
          scrolls := s.scrolls + RESTORATION_PER_ATTEMPT,
          silver := s.silver + ctx.cfg.prices.restoration_attempt_cost}
        match ds with
        | [] => none
        | d :: ds =>
          if d < RESTORATION_SUCCESS_RATE then
            some (⟨false, false, starting_level, level, valks_type,
                   true, true, false, 0, 0, false, ""⟩, s, ds)
          else
            let s := {s with level := level - 1}
            some (⟨false, false, starting_level, level - 1, valks_type,
                   true, false, false, 0, 0, false, ""⟩, s, ds)
      else if 0 < level then
        let s := {s with level := level - 1}
        some (⟨false, false, starting_level, level - 1, valks_type,
               false, false, false, 0, 0, false, ""⟩, s, ds)
      else
        some (⟨false, false, starting_level, level, valks_type,
               false, false, false, 0, 0, false, ""⟩, s, ds)

/-- engine.py step, the dispatch between the Hepta path, the Okta path and the
normal attempt. The source raises when is_complete already holds; the run
driver below never invokes it in that case, matching run_full_simulation. -/
def step (ctx : EngineCtx) (s : EngineState) (ds : List ℚ) :
    Option (StepResult × EngineState × List ℚ) :=
  if _should_use_hepta ctx s then _perform_hepta_okta_step ctx false s ds
  else if _should_use_okta ctx s then _perform_hepta_okta_step ctx true s ds
  else _perform_enhancement_step ctx s ds

/-- engine.py SimulationResult. -/
structure SimulationResult where
  crystals : ℕ
  scrolls : ℕ
  silver : ℕ
  exquisite_crystals : ℕ
  attempts : ℕ
  final_level : ℤ
  anvil_energy : ℤ → ℕ
  valks_10_used : ℕ
  valks_50_used : ℕ
  valks_100_used : ℕ

/-- The SimulationResult built by run_full_simulation from the final state. -/
def mkResult (s : EngineState) : SimulationResult :=
  ⟨s.crystals, s.scrolls, s.silver, s.exquisite_crystals, s.attempts, s.level,
   s.anvil_energy, s.valks_10_used, s.valks_50_used, s.valks_100_used⟩

/-- engine.py run_full_simulation: step until is_complete, then package the
engine state. Fuel bounds the number of loop iterations; none means the fuel
or the draw stream ran out before the target was reached. -/
def run_full_simulation (ctx : EngineCtx) :
    ℕ → EngineState → List ℚ → Option (SimulationResult × List ℚ)
  | 0, s, ds =>
    if ctx.cfg.target_level ≤ s.level then some (mkResult s, ds) else none
  | fuel + 1, s, ds =>
    if ctx.cfg.target_level ≤ s.level then some (mkResult s, ds)
    else
      match step ctx s ds with
      | none => none
      | some (_, s, ds) => run_full_simulation ctx fuel s ds

/-- The local loop state of engine.py run_fast: the level, the shared
anvil_energy dictionary, the four resource counters started at zero, and the
Hepta/Okta progress and pity locals. -/
structure FastState where
  level : ℤ
  anvil_energy : ℤ → ℕ
  crystals : ℕ
  scrolls : ℕ
  silver : ℕ
  exquisite_crystals : ℕ
  hepta_progress : ℕ
  okta_progress : ℕ
  hepta_pity : ℕ
  okta_pity : ℕ

/-- One iteration of the while body of engine.py run_fast (lines 482-557),
invoked only while level < target_level. -/
def fast_iter (ctx : EngineCtx) (f : FastState) (ds : List ℚ) :
    Option (FastState × List ℚ) :=
  if (ctx.cfg.use_hepta || decide (0 < f.hepta_progress)) &&
      decide (f.level = 7) && decide (f.hepta_progress < HEPTA_SUB_ENHANCEMENTS) then
    let f := {f with
      exquisite_crystals := f.exquisite_crystals + HEPTA_OKTA_CRYSTALS_PER_ATTEMPT,
      silver := f.silver + exquisite_cost ctx.cfg * HEPTA_OKTA_CRYSTALS_PER_ATTEMPT}
    match orDraw (decide (HEPTA_OKTA_ANVIL_PITY ≤ f.hepta_pity)) HEPTA_OKTA_SUCCESS_RATE ds with
    | none => none
    | some (success, ds) =>
      if success then
        let f := {f with hepta_progress := f.hepta_progress + 1, hepta_pity := 0}
        if HEPTA_SUB_ENHANCEMENTS ≤ f.hepta_progress then
          some ({f with
            level := 8,
            anvil_energy := fun t => if t = 8 then 0 else f.anvil_energy t,
            hepta_progress := 0}, ds)
        else some (f, ds)
      else some ({f with hepta_pity := f.hepta_pity + 1}, ds)
  else if (ctx.cfg.use_okta || decide (0 < f.okta_progress)) &&
      decide (f.level = 8) && decide (f.okta_progress < OKTA_SUB_ENHANCEMENTS) then
    let f := {f with
      exquisite_crystals := f.exquisite_crystals + HEPTA_OKTA_CRYSTALS_PER_ATTEMPT,
      silver := f.silver + exquisite_cost ctx.cfg * HEPTA_OKTA_CRYSTALS_PER_ATTEMPT}
    match orDraw (decide (HEPTA_OKTA_ANVIL_PITY ≤ f.okta_pity)) HEPTA_OKTA_SUCCESS_RATE ds with
    | none => none
    | some (success, ds) =>
      if success then
        let f := {f with okta_progress := f.okta_progress + 1, okta_pity := 0}
        if OKTA_SUB_ENHANCEMENTS ≤ f.okta_progress then
          some ({f with
            level := 9,
            anvil_energy := fun t => if t = 9 then 0 else f.anvil_energy t,
            okta_progress := 0}, ds)
        else some (f, ds)
      else some ({f with okta_pity := f.okta_pity + 1}, ds)
  else
    let next_level := f.level + 1
    let bf :=
      if 0 < ctx.cfg.valks_100_from ∧ ctx.cfg.valks_100_from ≤ next_level then
        (_RATE_CACHE_VALKS_100 ctx.rates next_level,
         {f with silver := f.silver + ctx.cfg.prices.valks_100_price})
      else if 0 < ctx.cfg.valks_50_from ∧ ctx.cfg.valks_50_from ≤ next_level then
        (_RATE_CACHE_VALKS_50 ctx.rates next_level,
         {f with silver := f.silver + ctx.cfg.prices.valks_50_price})
      else if 0 < ctx.cfg.valks_10_from ∧ ctx.cfg.valks_10_from ≤ next_level then
        (_RATE_CACHE_VALKS_10 ctx.rates next_level,
         {f with silver := f.silver + ctx.cfg.prices.valks_10_price})
      else (_RATE_CACHE ctx.rates next_level, f)
    let base_rate : ℚ := bf.1
    let f : FastState := bf.2
    let f := {f with
      crystals := f.crystals + 1,
      silver := f.silver + ctx.cfg.prices.crystal_price}
    let current_energy := f.anvil_energy next_level
    let max_energy := _ANVIL_CACHE ctx.anvil next_level
    let anvil_triggered := decide (max_energy ≤ current_energy ∧ 0 < max_energy)
    match orDraw anvil_triggered base_rate ds with
    | none => none
    | some (success, ds) =>
      if success then
        some ({f with
          level := next_level,
          anvil_energy := fun t => if t = next_level then 0 else f.anvil_energy t}, ds)
      else
        let f : FastState := {f with
          anvil_energy := fun t => if t = next_level then current_energy + 1 else f.anvil_energy t}
        if 0 < f.level ∧ 0 < ctx.cfg.restoration_from ∧ ctx.cfg.restoration_from ≤ f.level then
          let f := {f with
            scrolls := f.scrolls + RESTORATION_PER_ATTEMPT,
            silver := f.silver + ctx.cfg.prices.restoration_attempt_cost}
          match ds with
          | [] => none
          | d :: ds =>
            if RESTORATION_SUCCESS_RATE ≤ d then some ({f with level := f.level - 1}, ds)
            else some (f, ds)
        else if 0 < f.level then some ({f with level := f.level - 1}, ds)
        else some (f, ds)

/-- The while loop of engine.py run_fast over the loop state, with fuel
bounding the number of iterations; returns the result tuple
(crystals, scrolls, silver, exquisite_crystals). -/
def run_fast_loop (ctx : EngineCtx) :
    ℕ → FastState → List ℚ → Option ((ℕ × ℕ × ℕ × ℕ) × List ℚ)
  | 0, f, ds =>
    if f.level < ctx.cfg.target_level then none
    else some ((f.crystals, f.scrolls, f.silver, f.exquisite_crystals), ds)
  | fuel + 1, f, ds =>
    if f.level < ctx.cfg.target_level then
      match fast_iter ctx f ds with
      | none => none
      | some (f, ds) => run_fast_loop ctx fuel f ds
    else some ((f.crystals, f.scrolls, f.silver, f.exquisite_crystals), ds)

/-- engine.py run_fast: copies level, the anvil_energy dictionary and the
Hepta/Okta progress from the engine state, starts the four resource counters
and both pity locals at zero, then runs the loop. -/
def run_fast (ctx : EngineCtx) (fuel : ℕ) (s : EngineState) (ds : List ℚ) :
    Option ((ℕ × ℕ × ℕ × ℕ) × List ℚ) :=
  run_fast_loop ctx fuel
    ⟨s.level, s.anvil_energy, 0, 0, 0, 0, s.hepta_progress, s.okta_progress, 0, 0⟩ ds

/-- Forgetful projection from the engine state to the run_fast loop state:
the two agree on the shared fields. -/
def projF (s : EngineState) : FastState :=
  ⟨s.level, s.anvil_energy, s.crystals, s.scrolls, s.silver, s.exquisite_crystals,
   s.hepta_progress, s.okta_progress, s.hepta_pity, s.okta_pity⟩

end Engine

/-! Concrete instances used by the theorems below. -/

/-- Strategy that never restores and never uses Valks. -/
def stratNever : Sim.EnhancementStrategy := ⟨.never, 3, .never, 6, false⟩

/-- A fresh gear state at level 0 with no accumulated energy. -/
def gear0 : Sim.GearState := ⟨0, fun _ => 0⟩

/-- Rate table defined only at tier 1 (tier 2 is a configuration gap). -/
def c2rates : ℤ → Option ℚ := fun t => if t = 1 then some (mkRat 70 100) else none

/-- Pity threshold table defined only at tier 1 (tier 2 is a gap). -/
def c2anvil : ℤ → Option ℕ := fun t => if t = 1 then some 0 else none

/-- The non-convergence scenario of the specification: tier 1 base rate
0.0001; pity thresholds absent (so the simulator defaults them to 999,
which never fires in a short run). -/
def c3tables : Sim.Tables :=
  ⟨fun t => if t = 1 then some (mkRat 1 10000) else none,
   fun _ => none, fun _ => none, fun _ => none⟩

/-- Fifty draws of one half: every roll misses the 0.0001 success rate. -/
def c3ds : List ℚ := List.replicate 50 (mkRat 1 2)

/-- Rate table with a 0.9 base rate at tier 1, for the probability clamp. -/
def c8rates : ℤ → Option ℚ := fun t => if t = 1 then some (mkRat 9 10) else none

/-- The multiplier named by each Valks tag, 1 when none is selected; the
closed form the specification states for the effective probability. -/
def valksMultiplier : Option String → ℚ := fun v =>
  if v = some "small" ∨ v = some "10" then VALKS_MULTIPLIER_10
  else if v = some "large" ∨ v = some "50" then VALKS_MULTIPLIER_50
  else if v = some "100" then VALKS_MULTIPLIER_100
  else 1

/-- Market prices with only a crystal price, for concrete engine runs. -/
def pricesZero : Engine.MarketPrices := ⟨0, 0, 0, 0, 0⟩

/-- Plain engine configuration: start 0, target 10, restoration disabled,
no Hepta/Okta, all Valks disabled. -/
def cfgPlain : Engine.SimulationConfig :=
  ⟨0, 10, 0, false, false, 0, 0, 0, 0, 0, pricesZero⟩

/-- Plain engine context over the shipped tables. -/
def ctxPlain : Engine.EngineCtx :=
  ⟨cfgPlain, AWAKENING_ENHANCEMENT_RATES, ANVIL_THRESHOLDS_AWAKENING⟩

/-- Engine configuration with the Hepta path enabled, target 9. -/
def cfgHepta : Engine.SimulationConfig :=
  ⟨7, 9, 0, true, false, 0, 0, 0, 0, 0, pricesZero⟩

/-- Engine context with the Hepta path enabled. -/
def ctxHepta : Engine.EngineCtx :=
  ⟨cfgHepta, AWAKENING_ENHANCEMENT_RATES, ANVIL_THRESHOLDS_AWAKENING⟩

/-- Engine state at level 7 with Hepta progress 4 of 5: the next sub-success
completes the path. -/
def heptaAlmost : Engine.EngineState :=
  ⟨7, fun _ => 0, 0, 0, 0, 0, 0, 0, 0, 0, 4, 0, 0, 0⟩

/-! Helper lemmas. -/

theorem accumulate_total_attempts (res : Sim.SimulationResult) (a : Sim.AttemptResult) :
    (Sim.accumulate res a).total_attempts = res.total_attempts + 1 := by
  simp only [Sim.accumulate]
  split_ifs <;> rfl

theorem sim_loop_attempts_eq (tbl : Sim.Tables) (strat : Sim.EnhancementStrategy) (target : ℤ) :
    ∀ (n : ℕ) (gear : Sim.GearState) (res : Sim.SimulationResult) (ds : List ℚ)
      (r : Sim.SimulationResult) (g : Sim.GearState) (ds2 : List ℚ),
      Sim.sim_loop tbl strat target n gear res ds = .ok (r, g, ds2) →
      g.awakening_level < target →
      r.total_attempts = res.total_attempts + n := by
  intro n
  induction n with
  | zero =>
    intro gear res ds r g ds2 h hlt
    simp only [Sim.sim_loop, Except.ok.injEq, Prod.mk.injEq] at h
    rw [← h.1]
    omega
  | succ n ih =>
    intro gear res ds r g ds2 h hlt
    rw [Sim.sim_loop] at h
    by_cases hg : gear.awakening_level < target
    · rw [if_pos hg] at h
      cases ha : Sim.attempt_enhancement tbl gear strat ds with
      | error e => rw [ha] at h; exact absurd h (by simp)
      | ok x =>
        obtain ⟨a, g1, ds1⟩ := x
        rw [ha] at h
        have := ih g1 (Sim.accumulate res a) ds1 r g ds2 h hlt
        rw [this, accumulate_total_attempts]
        omega
    · rw [if_neg hg] at h
      simp only [Except.ok.injEq, Prod.mk.injEq] at h
      exact absurd (h.2.1 ▸ hlt) hg

theorem account_attempt_level (ctx : Engine.EngineCtx) (v : Option String)
    (s : Engine.EngineState) :
    (Engine._account_attempt ctx v s).level = s.level := by
  simp only [Engine._account_attempt]
  split_ifs <;> rfl

/-! Claim theorems. -/

/-- Claim C1 (code bug exhibit): with the shipped tables, whose pity threshold
for tier 1 is 0, a fresh attempt at level 0 in simulator.py attempt_enhancement
is resolved as an anvil-forced success without consuming any random draw,
because line 184 compares current_energy >= max_energy without the
max_energy > 0 guard that engine.py line 364 has. The claim (threshold 0
never forces success) is the documented intent and the simulator violates it. -/
theorem threshold_zero_forced_success_bug :
    ((Sim.attempt_enhancement Sim.defaultTables gear0 stratNever []).toOption.map
      fun x => (x.1.success, x.1.anvil_triggered, x.2.1.awakening_level)) =
      some (true, true, 1) := by
  rfl

/-- Claim C2 (counterexample): for a tier absent from the rate table the
simulator resolver returns the silent default rate 0.01 instead of failing,
and the engine threshold cache returns the silent default 999; no
InvalidConfiguration error exists in either code path. -/
theorem missing_tier_substitutes_default :
    Sim._get_success_rate c2rates 2 none = 1/100 ∧
    Engine._ANVIL_CACHE c2anvil 2 = 999 := by
  constructor <;> rfl

/-- Claim C2 (amended): for every tier missing from the rate table the
resolvers substitute the base rate 0.01, and for every tier missing from the
pity threshold table they substitute the threshold 999, continuing without
any error. -/
theorem missing_tier_default_values (rates : ℤ → Option ℚ) (anvil : ℤ → Option ℕ)
    (t : ℤ) (hr : rates t = none) (ha : anvil t = none) :
    Sim._get_success_rate rates t none = 1/100 ∧
    Engine._RATE_CACHE rates t = 1/100 ∧
    Engine._ANVIL_CACHE anvil t = 999 := by
  refine ⟨?_, ?_, ?_⟩
  · simp [Sim._get_success_rate, hr]
  · unfold Engine._RATE_CACHE
    split_ifs <;> simp [hr]
  · unfold Engine._ANVIL_CACHE
    split_ifs <;> simp [ha]

/-- Witness for the amended claim C2 at the everywhere-undefined tables and
tier 5. -/
theorem missing_tier_default_values_witness :
    Sim._get_success_rate (fun _ => none) 5 none = 1/100 ∧
    Engine._RATE_CACHE (fun _ => none) 5 = 1/100 ∧
    Engine._ANVIL_CACHE (fun _ => none) 5 = 999 :=
  missing_tier_default_values (fun _ => none) (fun _ => none) 5 rfl rfl

/-- Claim C3 (counterexample): in the non-convergence scenario of the
specification (tier 1 rate 0.0001, bound 50, every draw failing), the run
driver simulate_to_target returns an ordinary ok SimulationResult with
total_attempts 50 and final level 0: no distinguished non-convergence
condition is reported, the partial ledger looks like any completed one. -/
theorem nonconvergence_not_distinguished :
    ((Sim.simulate_to_target c3tables stratNever 1 gear0 50 c3ds).toOption.map
      fun x => (x.1.total_attempts, x.2.1.awakening_level)) = some (50, 0) := by
  rfl

/-- Claim C3 (amended): whenever the run driver returns with the target not
reached, the returned ordinary ledger carries total_attempts exactly equal to
the configured bound; truncation is detectable only by inspecting the ledger,
not through any distinguished error condition. -/
theorem truncated_run_attempts_eq_bound (tbl : Sim.Tables)
    (strat : Sim.EnhancementStrategy) (target : ℤ) (start : Sim.GearState)
    (bound : ℕ) (ds : List ℚ) (r : Sim.SimulationResult) (g : Sim.GearState)
    (ds2 : List ℚ)
    (h : Sim.simulate_to_target tbl strat target start bound ds = .ok (r, g, ds2))
    (hlt : g.awakening_level < target) :
    r.total_attempts = bound := by
  unfold Sim.simulate_to_target at h
  cases hl : Sim.sim_loop tbl strat target bound start (Sim.initResult target) ds with
  | error e => rw [hl] at h; exact absurd h (by simp)
  | ok x =>
    obtain ⟨res, gear, dsx⟩ := x
    rw [hl] at h
    simp only [Except.ok.injEq, Prod.mk.injEq] at h
    obtain ⟨h1, h2, h3⟩ := h
    have := sim_loop_attempts_eq tbl strat target bound start (Sim.initResult target)
      ds res gear dsx hl (h2 ▸ hlt)
    rw [← h1]
    simpa [Sim.initResult] using this

/-- Witness for the amended claim C3: a three-attempt scenario hitting the
bound, concluded through the theorem. -/
theorem truncated_run_attempts_eq_bound_witness :
    ((Sim.simulate_to_target c3tables stratNever 1 gear0 3 (List.replicate 3 (mkRat 1 2))).toOption.map
      fun x => x.1.total_attempts) = some 3 := by
  obtain ⟨r, g, ds2, h⟩ : ∃ r g ds2,
      Sim.simulate_to_target c3tables stratNever 1 gear0 3 (List.replicate 3 (mkRat 1 2)) =
        .ok (r, g, ds2) := ⟨_, _, _, rfl⟩
  have hlv : g.awakening_level = 0 := by
    have h2 : ((Sim.simulate_to_target c3tables stratNever 1 gear0 3
        (List.replicate 3 (mkRat 1 2))).toOption.map fun x => x.2.1.awakening_level) =
        some 0 := by rfl
    rw [h] at h2
    simpa only [Except.toOption, Option.map_some', Option.some.injEq] using h2
  have := truncated_run_attempts_eq_bound c3tables stratNever 1 gear0 3
    (List.replicate 3 (mkRat 1 2)) r g ds2 h (by rw [hlv]; norm_num)
  rw [h]
  simp only [Except.toOption, Option.map_some', Option.some.injEq]
  exact this

/-- Claim C4: the aggregator computes percentile(p) as the element at index
min(floor(n * p), n - 1) of the ascending-sorted per-run values (the index is
in bounds and the value is an element of the dataset); for the sorted dataset
1,2,3,4,5 the 50th percentile is 3 and the 90th is 5; the mean is the
arithmetic average sum / n. -/
theorem percentile_nearest_rank :
    (∀ (data : List ℚ) (p : ℚ), 1 ≤ data.length → 0 ≤ p →
      min (Int.toNat ⌊(data.length : ℚ) * p⌋) (data.length - 1) < data.length ∧
      Sim.percentile data p =
        data.getD (min (Int.toNat ⌊(data.length : ℚ) * p⌋) (data.length - 1)) 0 ∧
      Sim.percentile data p ∈ data) ∧
    (∀ results : List Sim.SimulationResult,
      List.Sorted (· ≤ ·) (Sim.attempts_sorted results)) ∧
    Sim.percentile [1, 2, 3, 4, 5] (mkRat 50 100) = 3 ∧
    Sim.percentile [1, 2, 3, 4, 5] (mkRat 90 100) = 5 ∧
    (∀ data : List ℚ, 1 ≤ data.length → Sim.average data = data.sum / data.length) := by
  refine ⟨?_, ?_, ?_, ?_, ?_⟩
  · intro data p hn hp
    have hidx : min (Int.toNat ⌊(data.length : ℚ) * p⌋) (data.length - 1) <
        data.length := by
      have := Nat.min_le_right (Int.toNat ⌊(data.length : ℚ) * p⌋) (data.length - 1)
      omega
    refine ⟨hidx, rfl, ?_⟩
    have heq : Sim.percentile data p = data[min (Int.toNat ⌊(data.length : ℚ) * p⌋)
        (data.length - 1)] := List.getD_eq_getElem data 0 hidx
    rw [heq]
    exact List.getElem_mem hidx
  · intro results
    exact List.sorted_insertionSort (· ≤ ·) _
  · have hf : ⌊(([1, 2, 3, 4, 5] : List ℚ).length : ℚ) * mkRat 50 100⌋ = 2 := by
      rw [Int.floor_eq_iff]
      norm_num [Rat.mkRat_eq_div]
    unfold Sim.percentile
    rw [hf]
    rfl
  · have hf : ⌊(([1, 2, 3, 4, 5] : List ℚ).length : ℚ) * mkRat 90 100⌋ = 4 := by
      rw [Int.floor_eq_iff]
      norm_num [Rat.mkRat_eq_div]
    unfold Sim.percentile
    rw [hf]
    rfl
  · intro data h
    have hne : ¬(data.isEmpty = true) := by
      rw [List.isEmpty_iff]
      intro hnil
      subst hnil
      simp at h
    rw [Sim.average, if_neg hne]

/-- Witness for claim C4 at the five-element dataset and the 50th percentile. -/
theorem percentile_nearest_rank_witness :
    (1 ≤ ([1, 2, 3, 4, 5] : List ℚ).length) ∧
    Sim.percentile [1, 2, 3, 4, 5] (mkRat 50 100) ∈ ([1, 2, 3, 4, 5] : List ℚ) ∧
    Sim.average [1, 2, 3, 4, 5] = ([1, 2, 3, 4, 5] : List ℚ).sum /
      (([1, 2, 3, 4, 5] : List ℚ).length : ℚ) :=
  ⟨by norm_num,
   (percentile_nearest_rank.1 [1, 2, 3, 4, 5] (mkRat 50 100) (by norm_num)
     (by positivity)).2.2,
   percentile_nearest_rank.2.2.2.2 [1, 2, 3, 4, 5] (by norm_num)⟩

/-- Claim C8: for every rate table, target tier and Valks selection with the
looked-up base rate at most 1, the effective success probability of
simulator.py equals min(1, baseRate * multiplier) with multiplier 1 when no
Valks is selected; the engine precomputed Valks caches satisfy the same
formula on the table domain; and a 0.9 base rate with the x2 multiplier gives
exactly probability 1. -/
theorem effective_probability_clamped :
    (∀ (rates : ℤ → Option ℚ) (t : ℤ) (v : Option String),
      (rates t).getD (1/100) ≤ 1 →
      Sim._get_success_rate rates t v =
        min 1 ((rates t).getD (1/100) * valksMultiplier v)) ∧
    (∀ (rates : ℤ → Option ℚ) (t : ℤ), 1 ≤ t → t ≤ 10 →
      Engine._RATE_CACHE_VALKS_100 rates t =
        min 1 ((rates t).getD (1/100) * valksMultiplier (some "100"))) ∧
    Sim._get_success_rate c8rates 1 (some "100") = 1 := by
  refine ⟨?_, ?_, ?_⟩
  · intro rates t v hb
    simp only [Sim._get_success_rate, valksMultiplier]
    split_ifs <;> try rfl
    rw [mul_one, min_eq_right hb]
  · intro rates t h1 h10
    simp only [Engine._RATE_CACHE_VALKS_100, valksMultiplier]
    rw [if_pos ⟨h1, h10⟩]
    rfl
  · have hb : Sim._get_success_rate c8rates 1 (some "100") =
        min 1 (mkRat 9 10 * VALKS_MULTIPLIER_100) := rfl
    rw [hb, VALKS_MULTIPLIER_100]
    norm_num [Rat.mkRat_eq_div]

/-- Witness for claim C8 at the 0.9 base rate table with the x2 Valks. -/
theorem effective_probability_clamped_witness :
    ((c8rates 1).getD (1/100) ≤ 1) ∧
    Sim._get_success_rate c8rates 1 (some "100") =
      min 1 ((c8rates 1).getD (1/100) * valksMultiplier (some "100")) :=
  ⟨by decide, effective_probability_clamped.1 c8rates 1 (some "100") (by decide)⟩

/-- Claim C7: in both resolvers, a failed attempt raises the pity energy of
the target tier (current level plus one) by exactly 1, and any success on
that tier (by draw or pity-forced) leaves it exactly 0. -/
theorem pity_energy_step_invariant :
    (∀ (ctx : Engine.EngineCtx) (s : Engine.EngineState) (ds : List ℚ)
       (r : Engine.StepResult) (s2 : Engine.EngineState) (ds2 : List ℚ),
       Engine._perform_enhancement_step ctx s ds = some (r, s2, ds2) →
       (r.success = true → s2.anvil_energy (s.level + 1) = 0) ∧
       (r.success = false → s2.anvil_energy (s.level + 1) =
         s.anvil_energy (s.level + 1) + 1)) ∧
    (∀ (tbl : Sim.Tables) (g : Sim.GearState) (strat : Sim.EnhancementStrategy)
       (ds : List ℚ) (r : Sim.AttemptResult) (g2 : Sim.GearState) (ds2 : List ℚ),
       Sim.attempt_enhancement tbl g strat ds = .ok (r, g2, ds2) →
       (r.success = true → g2.anvil_energy (g.awakening_level + 1) = 0) ∧
       (r.success = false → g2.anvil_energy (g.awakening_level + 1) =
         g.anvil_energy (g.awakening_level + 1) + 1)) := by
  constructor
  · intro ctx s ds r s2 ds2 h
    simp only [Engine._perform_enhancement_step] at h
    split at h
    · exact absurd h (by simp)
    · split at h
      · simp only [Option.some.injEq, Prod.mk.injEq] at h
        obtain ⟨hr, hs2, _⟩ := h
        subst hr; subst hs2
        exact ⟨fun _ => by simp, fun hs => by simp at hs⟩
      · split at h
        · split at h
          · exact absurd h (by simp)
          · split at h
            · simp only [Option.some.injEq, Prod.mk.injEq] at h
              obtain ⟨hr, hs2, _⟩ := h
              subst hr; subst hs2
              exact ⟨fun hs => by simp at hs, fun _ => by simp⟩
            · simp only [Option.some.injEq, Prod.mk.injEq] at h
              obtain ⟨hr, hs2, _⟩ := h
              subst hr; subst hs2
              exact ⟨fun hs => by simp at hs, fun _ => by simp⟩
        · split at h
          · simp only [Option.some.injEq, Prod.mk.injEq] at h
            obtain ⟨hr, hs2, _⟩ := h
            subst hr; subst hs2
            exact ⟨fun hs => by simp at hs, fun _ => by simp⟩
          · simp only [Option.some.injEq, Prod.mk.injEq] at h
            obtain ⟨hr, hs2, _⟩ := h
            subst hr; subst hs2
            exact ⟨fun hs => by simp at hs, fun _ => by simp⟩
  · intro tbl g strat ds r g2 ds2 h
    simp only [Sim.attempt_enhancement] at h
    split at h
    · exact absurd h (by simp)
    · split at h
      · simp only [Except.ok.injEq, Prod.mk.injEq] at h
        obtain ⟨hr, hg2, _⟩ := h
        subst hr; subst hg2
        exact ⟨fun _ => by simp, fun hs => by simp at hs⟩
      · split at h
        · exact absurd h (by simp)
        · split at h
          · simp only [Except.ok.injEq, Prod.mk.injEq] at h
            obtain ⟨hr, hg2, _⟩ := h
            subst hr; subst hg2
            exact ⟨fun _ => by simp, fun hs => by simp at hs⟩
          · split at h
            · split at h
              · split at h
                · exact absurd h (by simp)
                · split at h
                  · simp only [Except.ok.injEq, Prod.mk.injEq] at h
                    obtain ⟨hr, hg2, _⟩ := h
                    subst hr; subst hg2
                    exact ⟨fun hs => by simp at hs, fun _ => by simp⟩
                  · simp only [Except.ok.injEq, Prod.mk.injEq] at h
                    obtain ⟨hr, hg2, _⟩ := h
                    subst hr; subst hg2
                    exact ⟨fun hs => by simp at hs, fun _ => by simp⟩
              · simp only [Except.ok.injEq, Prod.mk.injEq] at h
                obtain ⟨hr, hg2, _⟩ := h
                subst hr; subst hg2
                exact ⟨fun hs => by simp at hs, fun _ => by simp⟩
            · simp only [Except.ok.injEq, Prod.mk.injEq] at h
              obtain ⟨hr, hg2, _⟩ := h
              subst hr; subst hg2
              exact ⟨fun hs => by simp at hs, fun _ => by simp⟩

/-- Witness for claim C7: a successful engine attempt at level 0 leaves the
tier 1 pity energy at 0, and a failed simulator attempt at level 0 (against a
table without thresholds) raises it to 1. -/
theorem pity_energy_step_invariant_witness :
    ((Engine._perform_enhancement_step ctxPlain (Engine.reset ctxPlain) [0]).map
      fun x => x.2.1.anvil_energy 1) = some 0 ∧
    ((Sim.attempt_enhancement c3tables gear0 stratNever [mkRat 1 2]).toOption.map
      fun x => x.2.1.anvil_energy 1) = some 1 := by
  constructor
  · obtain ⟨r, s2, ds2, h⟩ : ∃ r s2 ds2,
        Engine._perform_enhancement_step ctxPlain (Engine.reset ctxPlain) [0] =
          some (r, s2, ds2) := ⟨_, _, _, rfl⟩
    have hs : r.success = true := by
      have h2 : ((Engine._perform_enhancement_step ctxPlain (Engine.reset ctxPlain)
          [0]).map fun x => x.1.success) = some true := rfl
      rw [h] at h2
      simpa using h2
    have hz := (pity_energy_step_invariant.1 ctxPlain (Engine.reset ctxPlain) [0]
      r s2 ds2 h).1 hs
    rw [h]
    simpa using hz
  · obtain ⟨r, g2, ds2, h⟩ : ∃ r g2 ds2,
        Sim.attempt_enhancement c3tables gear0 stratNever [mkRat 1 2] =
          .ok (r, g2, ds2) := ⟨_, _, _, rfl⟩
    have hs : r.success = false := by
      have h2 : ((Sim.attempt_enhancement c3tables gear0 stratNever
          [mkRat 1 2]).toOption.map fun x => x.1.success) = some false := rfl
      rw [h] at h2
      simpa only [Except.toOption, Option.map_some', Option.some.injEq] using h2
    have hz := (pity_energy_step_invariant.2 c3tables gear0 stratNever [mkRat 1 2]
      r g2 ds2 h).2 hs
    rw [h]
    simp only [Except.toOption, Option.map_some', Option.some.injEq]
    simpa using hz

/-- Claim C9: the tier never becomes negative under any operation. A main
attempt from a nonnegative level ends nonnegative, a downgrade only happens
from a level strictly above 0, and a failed attempt at level 0 stays at
level 0; Hepta/Okta sub-attempts preserve nonnegativity (they never lower
the level below the fixed completion levels); the simulator resolver
satisfies the same three properties. -/
theorem tier_never_negative :
    (∀ (ctx : Engine.EngineCtx) (s : Engine.EngineState) (ds : List ℚ)
       (r : Engine.StepResult) (s2 : Engine.EngineState) (ds2 : List ℚ),
       0 ≤ s.level →
       Engine._perform_enhancement_step ctx s ds = some (r, s2, ds2) →
       0 ≤ s2.level ∧ (s2.level < s.level → 0 < s.level) ∧
       (r.success = false → s.level = 0 → s2.level = 0)) ∧
    (∀ (ctx : Engine.EngineCtx) (b : Bool) (s : Engine.EngineState) (ds : List ℚ)
       (r : Engine.StepResult) (s2 : Engine.EngineState) (ds2 : List ℚ),
       0 ≤ s.level →
       Engine._perform_hepta_okta_step ctx b s ds = some (r, s2, ds2) →
       0 ≤ s2.level ∧ (s2.level < s.level → 0 < s.level)) ∧
    (∀ (tbl : Sim.Tables) (g : Sim.GearState) (strat : Sim.EnhancementStrategy)
       (ds : List ℚ) (r : Sim.AttemptResult) (g2 : Sim.GearState) (ds2 : List ℚ),
       0 ≤ g.awakening_level →
       Sim.attempt_enhancement tbl g strat ds = .ok (r, g2, ds2) →
       0 ≤ g2.awakening_level ∧
       (g2.awakening_level < g.awakening_level → 0 < g.awakening_level) ∧
       (r.success = false → g.awakening_level = 0 → g2.awakening_level = 0)) := by
  refine ⟨?_, ?_, ?_⟩
  · intro ctx s ds r s2 ds2 h0 h
    simp only [Engine._perform_enhancement_step] at h
    split at h
    · exact absurd h (by simp)
    · split at h
      · simp only [Option.some.injEq, Prod.mk.injEq] at h
        obtain ⟨hr, hs2, _⟩ := h
        subst hr; subst hs2
        exact ⟨by simp <;> omega, by simp <;> omega, fun hs => by simp at hs⟩
      · split at h
        · rename_i hcond
          split at h
          · exact absurd h (by simp)
          · split at h
            · simp only [Option.some.injEq, Prod.mk.injEq] at h
              obtain ⟨hr, hs2, _⟩ := h
              subst hr; subst hs2
              exact ⟨by simp [account_attempt_level] <;> omega,
                by simp [account_attempt_level] <;> omega,
                fun _ hz => by simp [account_attempt_level] <;> omega⟩
            · simp only [Option.some.injEq, Prod.mk.injEq] at h
              obtain ⟨hr, hs2, _⟩ := h
              subst hr; subst hs2
              exact ⟨by simp <;> omega, by simp <;> omega, fun _ hz => by simp <;> omega⟩
        · split at h
          · rename_i hpos
            simp only [Option.some.injEq, Prod.mk.injEq] at h
            obtain ⟨hr, hs2, _⟩ := h
            subst hr; subst hs2
            exact ⟨by simp <;> omega, by simp <;> omega, fun _ hz => by simp <;> omega⟩
          · rename_i hnpos
            simp only [Option.some.injEq, Prod.mk.injEq] at h
            obtain ⟨hr, hs2, _⟩ := h
            subst hr; subst hs2
            exact ⟨by simp [account_attempt_level] <;> omega,
              by simp [account_attempt_level] <;> omega,
              fun _ hz => by simp [account_attempt_level] <;> omega⟩
  · intro ctx b s ds r s2 ds2 h0 h
    cases b
    · simp only [Engine._perform_hepta_okta_step, Bool.cond_false] at h
      split at h
      · exact absurd h (by simp)
      · split at h
        · by_cases hpc : HEPTA_SUB_ENHANCEMENTS ≤ s.hepta_progress + 1
          · simp only [decide_eq_true hpc, if_true, Option.some.injEq,
              Prod.mk.injEq] at h
            obtain ⟨hr, hs2, _⟩ := h
            subst hr; subst hs2
            constructor <;> simp <;> omega
          · simp only [decide_eq_false hpc, Bool.false_eq_true, if_false,
              Option.some.injEq, Prod.mk.injEq] at h
            obtain ⟨hr, hs2, _⟩ := h
            subst hr; subst hs2
            constructor <;> simp <;> omega
        · simp only [Option.some.injEq, Prod.mk.injEq] at h
          obtain ⟨hr, hs2, _⟩ := h
          subst hr; subst hs2
          constructor <;> simp <;> omega
    · simp only [Engine._perform_hepta_okta_step, Bool.cond_true] at h
      split at h
      · exact absurd h (by simp)
      · split at h
        · by_cases hpc : OKTA_SUB_ENHANCEMENTS ≤ s.okta_progress + 1
          · simp only [decide_eq_true hpc, if_true, Option.some.injEq,
              Prod.mk.injEq] at h
            obtain ⟨hr, hs2, _⟩ := h
            subst hr; subst hs2
            constructor <;> simp <;> omega
          · simp only [decide_eq_false hpc, Bool.false_eq_true, if_false,
              Option.some.injEq, Prod.mk.injEq] at h
            obtain ⟨hr, hs2, _⟩ := h
            subst hr; subst hs2
            constructor <;> simp <;> omega
        · simp only [Option.some.injEq, Prod.mk.injEq] at h
          obtain ⟨hr, hs2, _⟩ := h
          subst hr; subst hs2
          constructor <;> simp <;> omega
  · intro tbl g strat ds r g2 ds2 h0 h
    simp only [Sim.attempt_enhancement] at h
    split at h
    · exact absurd h (by simp)
    · split at h
      · simp only [Except.ok.injEq, Prod.mk.injEq] at h
        obtain ⟨hr, hg2, _⟩ := h
        subst hr; subst hg2
        exact ⟨by simp <;> omega, by simp <;> omega, fun hs => by simp at hs⟩
      · split at h
        · exact absurd h (by simp)
        · split at h
          · simp only [Except.ok.injEq, Prod.mk.injEq] at h
            obtain ⟨hr, hg2, _⟩ := h
            subst hr; subst hg2
            exact ⟨by simp <;> omega, by simp <;> omega, fun hs => by simp at hs⟩
          · split at h
            · rename_i hpos
              split at h
              · split at h
                · exact absurd h (by simp)
                · split at h
                  · simp only [Except.ok.injEq, Prod.mk.injEq] at h
                    obtain ⟨hr, hg2, _⟩ := h
                    subst hr; subst hg2
                    exact ⟨by simp <;> omega, by simp <;> omega,
                      fun _ hz => by simp <;> omega⟩
                  · simp only [Except.ok.injEq, Prod.mk.injEq] at h
                    obtain ⟨hr, hg2, _⟩ := h
                    subst hr; subst hg2
                    exact ⟨by simp <;> omega, by simp <;> omega,
                      fun _ hz => by simp <;> omega⟩
              · simp only [Except.ok.injEq, Prod.mk.injEq] at h
                obtain ⟨hr, hg2, _⟩ := h
                subst hr; subst hg2
                exact ⟨by simp <;> omega, by simp <;> omega,
                  fun _ hz => by simp <;> omega⟩
            · simp only [Except.ok.injEq, Prod.mk.injEq] at h
              obtain ⟨hr, hg2, _⟩ := h
              subst hr; subst hg2
              exact ⟨by simp <;> omega, by simp <;> omega,
                fun _ hz => by simp <;> omega⟩

/-- Witness for claim C9: a failed engine attempt at level 0 stays at
level 0, and so does a failed simulator attempt. -/
theorem tier_never_negative_witness :
    ((Engine._perform_enhancement_step ctxPlain (Engine.reset ctxPlain)
      [mkRat 9 10]).map fun x => x.2.1.level) = some 0 ∧
    ((Sim.attempt_enhancement c3tables gear0 stratNever [mkRat 1 2]).toOption.map
      fun x => x.2.1.awakening_level) = some 0 := by
  constructor
  · obtain ⟨r, s2, ds2, h⟩ : ∃ r s2 ds2,
        Engine._perform_enhancement_step ctxPlain (Engine.reset ctxPlain)
          [mkRat 9 10] = some (r, s2, ds2) := ⟨_, _, _, rfl⟩
    have hs : r.success = false := by
      have h2 : ((Engine._perform_enhancement_step ctxPlain (Engine.reset ctxPlain)
          [mkRat 9 10]).map fun x => x.1.success) = some false := rfl
      rw [h] at h2
      simpa using h2
    have hz := ((tier_never_negative.1 ctxPlain (Engine.reset ctxPlain)
      [mkRat 9 10] r s2 ds2 (by simp [Engine.reset, ctxPlain, cfgPlain]) h).2.2) hs (by simp [Engine.reset, ctxPlain, cfgPlain])
    rw [h]
    simpa using hz
  · obtain ⟨r, g2, ds2, h⟩ : ∃ r g2 ds2,
        Sim.attempt_enhancement c3tables gear0 stratNever [mkRat 1 2] =
          .ok (r, g2, ds2) := ⟨_, _, _, rfl⟩
    have hs : r.success = false := by
      have h2 : ((Sim.attempt_enhancement c3tables gear0 stratNever
          [mkRat 1 2]).toOption.map fun x => x.1.success) = some false := rfl
      rw [h] at h2
      simpa only [Except.toOption, Option.map_some', Option.some.injEq] using h2
    have hz := (tier_never_negative.2.2 c3tables gear0 stratNever [mkRat 1 2]
      r g2 ds2 (by simp [gear0]) h).2.2 hs (by simp [gear0])
    rw [h]
    simp only [Except.toOption, Option.map_some', Option.some.injEq]
    exact hz

/-- Claim C6: under the eligibility guard (main level equal to the entry
level of the path), a Hepta/Okta sub-attempt that completes the path
increments the main level by exactly one, resets the anvil energy of the
newly reached level to 0 and resets both the sub-progress and the sub-pity
to 0; and no sub-attempt, success or failure, ever lowers the main level. -/
theorem alternate_path_completion_atomic (ctx : Engine.EngineCtx) (is_okta : Bool)
    (s : Engine.EngineState) (ds : List ℚ) (r : Engine.StepResult)
    (s2 : Engine.EngineState) (ds2 : List ℚ)
    (hlv : s.level = if is_okta then 8 else 7)
    (h : Engine._perform_hepta_okta_step ctx is_okta s ds = some (r, s2, ds2)) :
    (r.path_complete = true →
      s2.level = s.level + 1 ∧
      s2.anvil_energy s2.level = 0 ∧
      (if is_okta then s2.okta_progress else s2.hepta_progress) = 0 ∧
      (if is_okta then s2.okta_pity else s2.hepta_pity) = 0) ∧
    s.level ≤ s2.level := by
  cases is_okta
  · simp only [if_false, Bool.false_eq_true] at hlv ⊢
    simp only [Engine._perform_hepta_okta_step, Bool.cond_false] at h
    split at h
    · exact absurd h (by simp)
    · split at h
      · by_cases hpc : HEPTA_SUB_ENHANCEMENTS ≤ s.hepta_progress + 1
        · simp only [decide_eq_true hpc, if_true, Option.some.injEq,
            Prod.mk.injEq] at h
          obtain ⟨hr, hs2, _⟩ := h
          subst hr; subst hs2
          refine ⟨fun _ => ⟨by simp [hlv], by simp, by simp, by simp⟩, ?_⟩
          simp [hlv]
        · simp only [decide_eq_false hpc, Bool.false_eq_true, if_false,
            Option.some.injEq, Prod.mk.injEq] at h
          obtain ⟨hr, hs2, _⟩ := h
          subst hr; subst hs2
          exact ⟨fun hf => by simp at hf, by simp⟩
      · simp only [Option.some.injEq, Prod.mk.injEq] at h
        obtain ⟨hr, hs2, _⟩ := h
        subst hr; subst hs2
        exact ⟨fun hf => by simp at hf, by simp⟩
  · simp only [if_true] at hlv ⊢
    simp only [Engine._perform_hepta_okta_step, Bool.cond_true] at h
    split at h
    · exact absurd h (by simp)
    · split at h
      · by_cases hpc : OKTA_SUB_ENHANCEMENTS ≤ s.okta_progress + 1
        · simp only [decide_eq_true hpc, if_true, Option.some.injEq,
            Prod.mk.injEq] at h
          obtain ⟨hr, hs2, _⟩ := h
          subst hr; subst hs2
          refine ⟨fun _ => ⟨by simp [hlv], by simp, by simp, by simp⟩, ?_⟩
          simp [hlv]
        · simp only [decide_eq_false hpc, Bool.false_eq_true, if_false,
            Option.some.injEq, Prod.mk.injEq] at h
          obtain ⟨hr, hs2, _⟩ := h
          subst hr; subst hs2
          exact ⟨fun hf => by simp at hf, by simp⟩
      · simp only [Option.some.injEq, Prod.mk.injEq] at h
        obtain ⟨hr, hs2, _⟩ := h
        subst hr; subst hs2
        exact ⟨fun hf => by simp at hf, by simp⟩

/-- Witness for claim C6: at level 7 with Hepta progress 4 of 5 a successful
sub-attempt completes the path, raising the level to 8 with energy, progress
and pity all 0. -/
theorem alternate_path_completion_atomic_witness :
    ((Engine._perform_hepta_okta_step ctxHepta false heptaAlmost [0]).map
      fun x => (x.2.1.level, x.2.1.anvil_energy 8, x.2.1.hepta_progress,
        x.2.1.hepta_pity)) = some (8, 0, 0, 0) := by
  obtain ⟨r, s2, ds2, h⟩ : ∃ r s2 ds2,
      Engine._perform_hepta_okta_step ctxHepta false heptaAlmost [0] =
        some (r, s2, ds2) := ⟨_, _, _, rfl⟩
  have hpc : r.path_complete = true := by
    have h2 : ((Engine._perform_hepta_okta_step ctxHepta false heptaAlmost [0]).map
        fun x => x.1.path_complete) = some true := rfl
    rw [h] at h2
    simpa using h2
  obtain ⟨h1, h2, h3, h4⟩ :=
    (alternate_path_completion_atomic ctxHepta false heptaAlmost [0] r s2 ds2 (by simp [heptaAlmost]) h).1 hpc
  have hl8 : s2.level = 8 := by rw [h1]; norm_num [heptaAlmost]
  have h2x : s2.anvil_energy 8 = 0 := by rw [← hl8]; exact h2
  have h3x : s2.hepta_progress = 0 := by simpa using h3
  have h4x : s2.hepta_pity = 0 := by simpa using h4
  rw [h]
  simp only [Option.map_some', Option.some.injEq]
  rw [hl8, h2x, h3x, h4x]

/-- The fast loop body agrees with the full step on the projected state:
one iteration of run_fast from the projection of an engine state equals the
projection of the engine step, with the same stream consumption. -/
theorem fast_iter_corr (ctx : Engine.EngineCtx) (s : Engine.EngineState) (ds : List ℚ) :
    Engine.fast_iter ctx (Engine.projF s) ds =
      (Engine.step ctx s ds).map fun x => (Engine.projF x.2.1, x.2.2) := by
  by_cases hH : ((ctx.cfg.use_hepta || decide (0 < s.hepta_progress)) &&
      decide (s.level = 7) && decide (s.hepta_progress < HEPTA_SUB_ENHANCEMENTS)) = true
  · simp only [Engine.fast_iter, Engine.step, Engine._should_use_hepta, Engine.projF, hH,
      if_true, Engine._perform_hepta_okta_step, Bool.cond_false]
    rcases horD : BDM.orDraw (decide (HEPTA_OKTA_ANVIL_PITY ≤ s.hepta_pity))
        HEPTA_OKTA_SUCCESS_RATE ds with _ | ⟨b, ds1⟩
    · simp [horD]
    · simp only [horD]
      cases b
      · simp
      · by_cases hpc : HEPTA_SUB_ENHANCEMENTS ≤ s.hepta_progress + 1
        · simp [hpc]
        · simp [hpc]
  · by_cases hO : ((ctx.cfg.use_okta || decide (0 < s.okta_progress)) &&
        decide (s.level = 8) && decide (s.okta_progress < OKTA_SUB_ENHANCEMENTS)) = true
    · simp only [Engine.fast_iter, Engine.step, Engine._should_use_hepta,
        Engine._should_use_okta, Engine.projF, hH, hO, if_true, if_false,
        Bool.false_eq_true, Engine._perform_hepta_okta_step, Bool.cond_true]
      rcases horD : BDM.orDraw (decide (HEPTA_OKTA_ANVIL_PITY ≤ s.okta_pity))
          HEPTA_OKTA_SUCCESS_RATE ds with _ | ⟨b, ds1⟩
      · simp [horD]
      · simp only [horD]
        cases b
        · simp
        · by_cases hpc : OKTA_SUB_ENHANCEMENTS ≤ s.okta_progress + 1
          · simp [hpc]
          · simp [hpc]
    · simp only [Engine.fast_iter, Engine.step, Engine._should_use_hepta,
        Engine._should_use_okta, Engine.projF, hH, hO, if_true, if_false,
        Bool.false_eq_true, Engine._perform_enhancement_step, Engine._select_valks,
        Engine._account_attempt]
      by_cases hv100 : 0 < ctx.cfg.valks_100_from ∧ ctx.cfg.valks_100_from ≤ s.level + 1
      · simp only [hv100, and_self, if_true]
        by_cases hanv : Engine._ANVIL_CACHE ctx.anvil (s.level + 1) ≤
            s.anvil_energy (s.level + 1) ∧ 0 < Engine._ANVIL_CACHE ctx.anvil (s.level + 1)
        · simp [BDM.orDraw, hanv] <;> omega
        · rcases ds with _ | ⟨d, ds1⟩
          · simp [BDM.orDraw, hanv]
          · by_cases hd : d < Engine._RATE_CACHE_VALKS_100 ctx.rates (s.level + 1)
            · simp [BDM.orDraw, hanv, hd] <;> omega
            · by_cases hl0 : 0 < s.level
              · by_cases hrf : 0 < ctx.cfg.restoration_from ∧
                    ctx.cfg.restoration_from ≤ s.level
                · rcases ds1 with _ | ⟨d2, ds2⟩
                  · simp [BDM.orDraw, hanv, hd, hl0, hrf]
                  · by_cases hres : d2 < RESTORATION_SUCCESS_RATE
                    · simp [BDM.orDraw, hanv, hd, hl0, hrf, hres, not_le.mpr hres] <;> omega
                    · simp [BDM.orDraw, hanv, hd, hl0, hrf, hres, not_lt.mp hres] <;> omega
                · simp [BDM.orDraw, hanv, hd, hl0, hrf] <;> omega
              · simp [BDM.orDraw, hanv, hd, hl0] <;> omega
      · by_cases hv50 : 0 < ctx.cfg.valks_50_from ∧ ctx.cfg.valks_50_from ≤ s.level + 1
        · simp only [hv100, hv50, and_self, if_true, if_false]
          by_cases hanv : Engine._ANVIL_CACHE ctx.anvil (s.level + 1) ≤
              s.anvil_energy (s.level + 1) ∧ 0 < Engine._ANVIL_CACHE ctx.anvil (s.level + 1)
          · simp [BDM.orDraw, hanv] <;> omega
          · rcases ds with _ | ⟨d, ds1⟩
            · simp [BDM.orDraw, hanv]
            · by_cases hd : d < Engine._RATE_CACHE_VALKS_50 ctx.rates (s.level + 1)
              · simp [BDM.orDraw, hanv, hd] <;> omega
              · by_cases hl0 : 0 < s.level
                · by_cases hrf : 0 < ctx.cfg.restoration_from ∧
                      ctx.cfg.restoration_from ≤ s.level
                  · rcases ds1 with _ | ⟨d2, ds2⟩
                    · simp [BDM.orDraw, hanv, hd, hl0, hrf]
                    · by_cases hres : d2 < RESTORATION_SUCCESS_RATE
                      · simp [BDM.orDraw, hanv, hd, hl0, hrf, hres, not_le.mpr hres] <;> omega
                      · simp [BDM.orDraw, hanv, hd, hl0, hrf, hres, not_lt.mp hres] <;> omega
                  · simp [BDM.orDraw, hanv, hd, hl0, hrf] <;> omega
                · simp [BDM.orDraw, hanv, hd, hl0] <;> omega
        · by_cases hv10 : 0 < ctx.cfg.valks_10_from ∧ ctx.cfg.valks_10_from ≤ s.level + 1
          · simp only [hv100, hv50, hv10, and_self, if_true, if_false]
            by_cases hanv : Engine._ANVIL_CACHE ctx.anvil (s.level + 1) ≤
                s.anvil_energy (s.level + 1) ∧ 0 < Engine._ANVIL_CACHE ctx.anvil (s.level + 1)
            · simp [BDM.orDraw, hanv] <;> omega
            · rcases ds with _ | ⟨d, ds1⟩
              · simp [BDM.orDraw, hanv]
              · by_cases hd : d < Engine._RATE_CACHE_VALKS_10 ctx.rates (s.level + 1)
                · simp [BDM.orDraw, hanv, hd] <;> omega
                · by_cases hl0 : 0 < s.level
                  · by_cases hrf : 0 < ctx.cfg.restoration_from ∧
                        ctx.cfg.restoration_from ≤ s.level
                    · rcases ds1 with _ | ⟨d2, ds2⟩
                      · simp [BDM.orDraw, hanv, hd, hl0, hrf]
                      · by_cases hres : d2 < RESTORATION_SUCCESS_RATE
                        · simp [BDM.orDraw, hanv, hd, hl0, hrf, hres, not_le.mpr hres] <;> omega
                        · simp [BDM.orDraw, hanv, hd, hl0, hrf, hres, not_lt.mp hres] <;> omega
                    · simp [BDM.orDraw, hanv, hd, hl0, hrf] <;> omega
                  · simp [BDM.orDraw, hanv, hd, hl0] <;> omega
          · simp only [hv100, hv50, hv10, if_false]
            by_cases hanv : Engine._ANVIL_CACHE ctx.anvil (s.level + 1) ≤
                s.anvil_energy (s.level + 1) ∧ 0 < Engine._ANVIL_CACHE ctx.anvil (s.level + 1)
            · simp [BDM.orDraw, hanv] <;> omega
            · rcases ds with _ | ⟨d, ds1⟩
              · simp [BDM.orDraw, hanv]
              · by_cases hd : d < Engine._RATE_CACHE ctx.rates (s.level + 1)
                · simp [BDM.orDraw, hanv, hd] <;> omega
                · by_cases hl0 : 0 < s.level
                  · by_cases hrf : 0 < ctx.cfg.restoration_from ∧
                        ctx.cfg.restoration_from ≤ s.level
                    · rcases ds1 with _ | ⟨d2, ds2⟩
                      · simp [BDM.orDraw, hanv, hd, hl0, hrf]
                      · by_cases hres : d2 < RESTORATION_SUCCESS_RATE
                        · simp [BDM.orDraw, hanv, hd, hl0, hrf, hres, not_le.mpr hres] <;> omega
                        · simp [BDM.orDraw, hanv, hd, hl0, hrf, hres, not_lt.mp hres] <;> omega
                    · simp [BDM.orDraw, hanv, hd, hl0, hrf] <;> omega
                  · simp [BDM.orDraw, hanv, hd, hl0] <;> omega

/-- Lifting the step correspondence through the loop: for every fuel the
fast loop from the projected state returns exactly the resource tuple of the
full simulation, or diverges together with it. -/
theorem run_fast_loop_corr (ctx : Engine.EngineCtx) :
    ∀ (fuel : ℕ) (s : Engine.EngineState) (ds : List ℚ),
      Engine.run_fast_loop ctx fuel (Engine.projF s) ds =
        (Engine.run_full_simulation ctx fuel s ds).map
          fun r => ((r.1.crystals, r.1.scrolls, r.1.silver, r.1.exquisite_crystals), r.2) := by
  intro fuel
  induction fuel with
  | zero =>
    intro s ds
    simp only [Engine.run_fast_loop, Engine.run_full_simulation]
    by_cases hc : ctx.cfg.target_level ≤ s.level
    · rw [if_neg (show ¬(Engine.projF s).level < ctx.cfg.target_level by
        simp [Engine.projF]; omega), if_pos hc]
      simp [Engine.mkResult, Engine.projF]
    · rw [if_pos (show (Engine.projF s).level < ctx.cfg.target_level by
        simp [Engine.projF]; omega), if_neg hc]
      simp
  | succ fuel ih =>
    intro s ds
    rw [Engine.run_fast_loop, Engine.run_full_simulation]
    by_cases hc : ctx.cfg.target_level ≤ s.level
    · rw [if_neg (show ¬(Engine.projF s).level < ctx.cfg.target_level by
        simp [Engine.projF]; omega), if_pos hc]
      simp [Engine.mkResult, Engine.projF]
    · rw [if_pos (show (Engine.projF s).level < ctx.cfg.target_level by
        simp [Engine.projF]; omega), if_neg hc]
      have hcorr := fast_iter_corr ctx s ds
      cases hstep : Engine.step ctx s ds with
      | none =>
        rw [hstep] at hcorr
        simp only [Option.map_none'] at hcorr
        rw [hcorr]
        simp
      | some x =>
        obtain ⟨r0, s1, ds1⟩ := x
        rw [hstep] at hcorr
        simp only [Option.map_some'] at hcorr
        rw [hcorr]
        simpa using ih s1 ds1

/-- Claim C5: starting from an engine state whose four resource counters
(crystals, scrolls, silver, exquisite crystals) and both Hepta/Okta pity
counters are zero — as they are after reset, when run_fast is invoked —
run_fast returns exactly the (crystals, scrolls, silver, exquisite_crystals)
tuple that run_full_simulation accumulates, consuming the same draws, and
fails to terminate within the fuel exactly when the full simulation does. -/
theorem run_fast_refines_run_full (ctx : Engine.EngineCtx) (fuel : ℕ)
    (s : Engine.EngineState) (ds : List ℚ)
    (h1 : s.crystals = 0) (h2 : s.scrolls = 0) (h3 : s.silver = 0)
    (h4 : s.exquisite_crystals = 0) (h5 : s.hepta_pity = 0) (h6 : s.okta_pity = 0) :
    Engine.run_fast ctx fuel s ds =
      (Engine.run_full_simulation ctx fuel s ds).map
        fun r => ((r.1.crystals, r.1.scrolls, r.1.silver, r.1.exquisite_crystals), r.2) := by
  have hinit : (⟨s.level, s.anvil_energy, 0, 0, 0, 0, s.hepta_progress,
      s.okta_progress, 0, 0⟩ : Engine.FastState) = Engine.projF s := by
    simp only [Engine.projF, h1, h2, h3, h4, h5, h6]
  rw [Engine.run_fast, hinit, run_fast_loop_corr]

theorem run_fast_refines_run_full_witness :
    Engine.run_fast ctxPlain 4 (Engine.reset ctxPlain) [] =
      (Engine.run_full_simulation ctxPlain 4 (Engine.reset ctxPlain) []).map
        (fun r => ((r.1.crystals, r.1.scrolls, r.1.silver,
          r.1.exquisite_crystals), r.2)) :=
  run_fast_refines_run_full ctxPlain 4 (Engine.reset ctxPlain) []
    rfl rfl rfl rfl rfl rfl

/-- Claim C10: the embedded core is a pure function of the configuration and
the draw stream derived from the seed; two executions of a Monte Carlo batch,
of a single run, or of an engine run with equal streams produce identical
outputs in every field. -/
theorem fixed_seed_deterministic (tbl : Sim.Tables) (strat : Sim.EnhancementStrategy)
    (target : ℤ) (start : Sim.GearState) (bound n : ℕ)
    (ctx : Engine.EngineCtx) (fuel : ℕ) (s : Engine.EngineState)
    (ds1 ds2 : List ℚ) (h : ds1 = ds2) :
    Sim.run_monte_carlo tbl strat target start bound n ds1 =
      Sim.run_monte_carlo tbl strat target start bound n ds2 ∧
    Sim.simulate_to_target tbl strat target start bound ds1 =
      Sim.simulate_to_target tbl strat target start bound ds2 ∧
    Engine.run_full_simulation ctx fuel s ds1 =
      Engine.run_full_simulation ctx fuel s ds2 := by
  subst h
  exact ⟨rfl, rfl, rfl⟩

/-- Witness for claim C10 at a concrete batch of two runs. -/
theorem fixed_seed_deterministic_witness :
    Sim.run_monte_carlo Sim.defaultTables stratNever 1 gear0 5 2 [0, 0] =
      Sim.run_monte_carlo Sim.defaultTables stratNever 1 gear0 5 2 [0, 0] ∧
    Sim.simulate_to_target Sim.defaultTables stratNever 1 gear0 5 [0, 0] =
      Sim.simulate_to_target Sim.defaultTables stratNever 1 gear0 5 [0, 0] ∧
    Engine.run_full_simulation ctxPlain 5 (Engine.reset ctxPlain) [0, 0] =
      Engine.run_full_simulation ctxPlain 5 (Engine.reset ctxPlain) [0, 0] :=
  fixed_seed_deterministic Sim.defaultTables stratNever 1 gear0 5 2 ctxPlain 5
    (Engine.reset ctxPlain) [0, 0] [0, 0] rfl

end BDM
